import Mathlib

/-!
Shallow embedding of the hps-cli client (src/index.py) and verification of
the frozen claims about it.

Conventions:
* Byte strings are `List Nat` with each element `< 256`.
* `hashlib.sha256` is embedded as a concrete executable FIPS 180-4 SHA-256
  over `List Nat`, so integrity claims can be settled on concrete inputs.
* External cryptographic library calls that the program treats as black
  boxes (`base64.b64encode`/`b64decode`, RSA-PSS `private_key.sign`) are
  parameters of the definitions that use them.
* Wall-clock time is an explicit parameter (`Int` seconds following
  `time.time()`), and thread waits are modelled by the arrival time of the
  awaited event.
-/

namespace HPS

/-! ## SHA-256 (model of `hashlib.sha256(...).digest()` / `.hexdigest()`) -/

/-- Truncation to a 32-bit word. -/
def m32 (x : Nat) : Nat := x % 4294967296

/-- 32-bit right rotation. -/
def rotr32 (n x : Nat) : Nat := (x >>> n) ||| m32 (x <<< (32 - n))

/-- SHA-256 Σ₀. -/
def bsig0 (x : Nat) : Nat := rotr32 2 x ^^^ rotr32 13 x ^^^ rotr32 22 x

/-- SHA-256 Σ₁. -/
def bsig1 (x : Nat) : Nat := rotr32 6 x ^^^ rotr32 11 x ^^^ rotr32 25 x

/-- SHA-256 σ₀. -/
def ssig0 (x : Nat) : Nat := rotr32 7 x ^^^ rotr32 18 x ^^^ (x >>> 3)

/-- SHA-256 σ₁. -/
def ssig1 (x : Nat) : Nat := rotr32 17 x ^^^ rotr32 19 x ^^^ (x >>> 10)

/-- SHA-256 Ch. -/
def chf (x y z : Nat) : Nat := (x &&& y) ^^^ ((x ^^^ 4294967295) &&& z)

/-- SHA-256 Maj. -/
def majf (x y z : Nat) : Nat := (x &&& y) ^^^ (x &&& z) ^^^ (y &&& z)

/-- The 64 SHA-256 round constants. -/
def K64 : List Nat := [
  1116352408, 1899447441, 3049323471, 3921009573, 961987163, 1508970993,
  2453635748, 2870763221, 3624381080, 310598401, 607225278, 1426881987,
  1925078388, 2162078206, 2614888103, 3248222580, 3835390401, 4022224774,
  264347078, 604807628, 770255983, 1249150122, 1555081692, 1996064986,
  2554220882, 2821834349, 2952996808, 3210313671, 3336571891, 3584528711,
  113926993, 338241895, 666307205, 773529912, 1294757372, 1396182291,
  1695183700, 1986661051, 2177026350, 2456956037, 2730485921, 2820302411,
  3259730800, 3345764771, 3516065817, 3600352804, 4094571909, 275423344,
  430227734, 506948616, 659060556, 883997877, 958139571, 1322822218,
  1537002063, 1747873779, 1955562222, 2024104815, 2227730452, 2361852424,
  2428436474, 2756734187, 3204031479, 3329325298]

/-- The SHA-256 initial hash value. -/
def H0 : List Nat := [
  1779033703, 3144134277, 1013904242, 2773480762, 1359893119, 2600822924,
  528734635, 1541459225]

/-- Big-endian 8-byte encoding of a natural number, the model of
`struct.pack(">Q", n)` (defined for every `n` by reducing modulo 2⁶⁴). -/
def uint64_be (n : Nat) : List Nat :=
  (List.range 8).map (fun i => n / 2 ^ (8 * (7 - i)) % 256)

/-- SHA-256 message padding. -/
def padMsg (m : List Nat) : List Nat :=
  m ++ [128] ++ List.replicate ((119 - m.length % 64) % 64) 0 ++ uint64_be (8 * m.length)

/-- Group bytes into big-endian 32-bit words. -/
def bytesToWords : List Nat → List Nat
  | a :: b :: c :: d :: rest => (((a * 256 + b) * 256 + c) * 256 + d) :: bytesToWords rest
  | _ => []

/-- Split a word list into 16-word blocks. -/
def chunks16 : List Nat → List (List Nat)
  | w0 :: w1 :: w2 :: w3 :: w4 :: w5 :: w6 :: w7 ::
    w8 :: w9 :: w10 :: w11 :: w12 :: w13 :: w14 :: w15 :: rest =>
      [w0, w1, w2, w3, w4, w5, w6, w7, w8, w9, w10, w11, w12, w13, w14, w15] :: chunks16 rest
  | _ => []

/-- Extend the message schedule by `n` further words. -/
def extendW : List Nat → Nat → List Nat
  | w, 0 => w
  | w, n + 1 =>
      let i := w.length
      extendW (w ++ [m32 (ssig1 (w.getD (i - 2) 0) + w.getD (i - 7) 0 +
        ssig0 (w.getD (i - 15) 0) + w.getD (i - 16) 0)]) n

/-- The full 64-word message schedule of one block. -/
def msgSchedule (ws : List Nat) : List Nat := extendW ws 48

/-- One SHA-256 round on working state `[a,b,c,d,e,f,g,h]`. -/
def compressRound (st : List Nat) (kw : Nat × Nat) : List Nat :=
  match st with
  | [a, b, c, d, e, f, g, h] =>
      let t1 := m32 (h + bsig1 e + chf e f g + kw.1 + kw.2)
      let t2 := m32 (bsig0 a + majf a b c)
      [m32 (t1 + t2), a, b, c, m32 (d + t1), e, f, g]
  | other => other

/-- SHA-256 compression of one 16-word block into the running hash value. -/
def compressBlock (h : List Nat) (block : List Nat) : List Nat :=
  let st := (K64.zip (msgSchedule block)).foldl compressRound h
  (h.zip st).map (fun p => m32 (p.1 + p.2))

/-- Big-endian bytes of a 32-bit word. -/
def wordBytes (w : Nat) : List Nat :=
  [w / 16777216 % 256, w / 65536 % 256, w / 256 % 256, w % 256]

/-- SHA-256 digest of a byte string. -/
def sha256 (m : List Nat) : List Nat :=
  (((chunks16 (bytesToWords (padMsg m))).foldl compressBlock H0).map wordBytes).flatten

/-- Lowercase hex digit. -/
def hexChar (n : Nat) : Char := if n < 10 then Char.ofNat (48 + n) else Char.ofNat (87 + n)

/-- Two-character lowercase hex of one byte. -/
def byteToHex (b : Nat) : String := String.mk [hexChar (b / 16), hexChar (b % 16)]

/-- Model of `hashlib.sha256(m).hexdigest()`. -/
def sha256hex (m : List Nat) : String := String.join ((sha256 m).map byteToHex)

/-- UTF-8 encoding of one Unicode scalar value. -/
def utf8Enc (c : Nat) : List Nat :=
  if c < 128 then [c]
  else if c < 2048 then [192 + c / 64, 128 + c % 64]
  else if c < 65536 then [224 + c / 4096, 128 + c / 64 % 64, 128 + c % 64]
  else [240 + c / 262144, 128 + c / 4096 % 64, 128 + c / 64 % 64, 128 + c % 64]

/-- UTF-8 bytes of a string, the model of `s.encode('utf-8')`. -/
def asciiBytes (s : String) : List Nat :=
  (s.data.map (fun ch => utf8Enc ch.toNat)).flatten

example : sha256hex [] = "e3b0c44298fc1c149afbf4c8996fb92427ae41e4649b934ca495991b7852b855" := by decide
example : sha256hex [] ≠ "deadbeef" := by decide

/-! ## PoW miner (`CLIPowSolver`, src/index.py:544-672) -/

/-- The 8 bits of a byte, most significant first: the model of
`bin(byte)[2:].zfill(8)` for a byte value `< 256`. -/
def byteBits (b : Nat) : List Bool := (List.range 8).map (fun i => b.testBit (7 - i))

/-- Model of `CLIPowSolver.leading_zero_bits` (src/index.py:554-562): a zero
byte adds 8 and the loop continues; the first nonzero byte adds
`bin(byte)[2:].zfill(8).index('1')` - the number of leading `false` entries of
its 8-bit string - and the loop breaks. -/
def leading_zero_bits : List Nat → Nat
  | [] => 0
  | b :: rest =>
      if b = 0 then 8 + leading_zero_bits rest
      else ((byteBits b).takeWhile (fun x => !x)).length

/-- Specification-side count: the number of leading zero bits of the whole
byte string viewed as one bit string. -/
def countLeadingZeroBits (bs : List Nat) : Nat :=
  (((bs.map byteBits).flatten).takeWhile (fun x => !x)).length

/-- The mining loop of `solve_challenge` (src/index.py:611-655): starting at
`nonce`, hash `challengeBytes ++ uint64_be nonce` and return the first nonce
whose digest has at least `t` leading zero bits; `fuel` models the 600-second
ceiling and the cancel flag, which only cut the search short. -/
def solveLoop (sha : List Nat → List Nat) (challengeBytes : List Nat) (t : Nat) :
    Nat → Nat → Option Nat
  | 0, _ => none
  | fuel + 1, nonce =>
      if t ≤ leading_zero_bits (sha (challengeBytes ++ uint64_be nonce)) then some nonce
      else solveLoop sha challengeBytes t fuel (nonce + 1)

/-- Model of `CLIPowSolver.solve_challenge` (src/index.py:579-666): the
challenge string is base64-decoded and the nonce search starts at 0. `sha`
and `b64decode` stand for `hashlib.sha256(..).digest()` and
`base64.b64decode`. -/
def solve_challenge (sha : List Nat → List Nat) (b64decode : String → List Nat)
    (challenge : String) (t fuel : Nat) : Option Nat :=
  solveLoop sha (b64decode challenge) t fuel 0

lemma takeWhile_append_all {p : Bool → Bool} {xs ys : List Bool}
    (h : ∀ x ∈ xs, p x = true) : (xs ++ ys).takeWhile p = xs ++ ys.takeWhile p := by
  induction xs with
  | nil => simp
  | cons a l ih =>
      have ha : p a = true := h a (List.mem_cons_self a l)
      simp [List.takeWhile_cons, ha, ih (fun x hx => h x (List.mem_cons_of_mem a hx))]

lemma takeWhile_append_stop {p : Bool → Bool} {xs ys : List Bool}
    (h : (xs.takeWhile p).length < xs.length) :
    (xs ++ ys).takeWhile p = xs.takeWhile p := by
  induction xs with
  | nil => simp at h
  | cons a l ih =>
      cases hpa : p a with
      | false => simp [List.takeWhile_cons, hpa]
      | true =>
          simp [List.takeWhile_cons, hpa] at h ⊢
          exact ih (by omega)

lemma byteBits_zero : byteBits 0 = List.replicate 8 false := by decide

lemma byteBits_length (b : Nat) : (byteBits b).length = 8 := by
  simp [byteBits]

set_option maxRecDepth 8000 in
lemma byte_takeWhile_lt : ∀ b, b < 256 → b ≠ 0 →
    ((byteBits b).takeWhile (fun x => !x)).length < 8 := by decide

/-- The byte-wise loop of `leading_zero_bits` computes the leading-zero-bit
count of the whole bit string, for genuine byte values. -/
lemma leading_zero_bits_eq_spec :
    ∀ bs : List Nat, (∀ b ∈ bs, b < 256) → leading_zero_bits bs = countLeadingZeroBits bs := by
  intro bs h
  induction bs with
  | nil => rfl
  | cons b rest ih =>
      have hb : b < 256 := h b (List.mem_cons_self b rest)
      have hrest : ∀ x ∈ rest, x < 256 := fun x hx => h x (List.mem_cons_of_mem b hx)
      by_cases hbz : b = 0
      · subst hbz
        have hall : ∀ x ∈ byteBits 0, (fun y => !y) x = true := by
          rw [byteBits_zero]; intro x hx
          rw [List.eq_of_mem_replicate hx]; rfl
        have e1 : leading_zero_bits (0 :: rest) = 8 + leading_zero_bits rest := by
          simp [leading_zero_bits]
        have e2 : countLeadingZeroBits (0 :: rest) = 8 + countLeadingZeroBits rest := by
          unfold countLeadingZeroBits
          rw [List.map_cons, List.flatten_cons, takeWhile_append_all hall,
            List.length_append, byteBits_length]
        rw [e1, e2, ih hrest]
      · have hlt : ((byteBits b).takeWhile (fun x => !x)).length < (byteBits b).length := by
          rw [byteBits_length]; exact byte_takeWhile_lt b hb hbz
        simp [leading_zero_bits, hbz, countLeadingZeroBits, takeWhile_append_stop hlt]

lemma solveLoop_eq_some {sha : List Nat → List Nat} {cb : List Nat} {t : Nat} :
    ∀ fuel k n, solveLoop sha cb t fuel k = some n →
      k ≤ n ∧ t ≤ leading_zero_bits (sha (cb ++ uint64_be n)) ∧
      ∀ m, k ≤ m → m < n → leading_zero_bits (sha (cb ++ uint64_be m)) < t := by
  intro fuel
  induction fuel with
  | zero => intro k n h; simp [solveLoop] at h
  | succ fuel ih =>
      intro k n h
      by_cases hc : t ≤ leading_zero_bits (sha (cb ++ uint64_be k))
      · rw [solveLoop, if_pos hc] at h
        obtain rfl : k = n := Option.some.inj h
        exact ⟨Nat.le_refl _, hc, fun m hm1 hm2 => absurd (Nat.lt_of_le_of_lt hm1 hm2) (Nat.lt_irrefl _)⟩
      · rw [solveLoop, if_neg hc] at h
        obtain ⟨h1, h2, h3⟩ := ih (k + 1) n h
        refine ⟨Nat.le_of_succ_le h1, h2, fun m hm1 hm2 => ?_⟩
        by_cases hmk : m = k
        · subst hmk; exact Nat.lt_of_not_le hc
        · exact h3 m (Nat.lt_of_le_of_ne hm1 (fun hkm => hmk hkm.symm)) hm2

/-- C3: `leading_zero_bits` counts the leading zero bits of the byte string,
and a nonce returned by `solve_challenge` for challenge `c` and target `t`
satisfies the target, is the least such nonce (the search starts at 0 and
increments by 1), and is 0 whenever `t = 0`. -/
theorem pow_solver_correct (sha : List Nat → List Nat) (b64decode : String → List Nat)
    (c : String) (t fuel n : Nat) (hrun : solve_challenge sha b64decode c t fuel = some n) :
    t ≤ leading_zero_bits (sha (b64decode c ++ uint64_be n)) ∧
    (∀ m, m < n → leading_zero_bits (sha (b64decode c ++ uint64_be m)) < t) ∧
    (t = 0 → n = 0) ∧
    (∀ bs : List Nat, (∀ b ∈ bs, b < 256) →
      leading_zero_bits bs = countLeadingZeroBits bs) := by
  obtain ⟨-, h2, h3⟩ := solveLoop_eq_some fuel 0 n hrun
  refine ⟨h2, fun m hm => h3 m (Nat.zero_le m) hm, fun ht => ?_, leading_zero_bits_eq_spec⟩
  by_contra hn
  have h0 : leading_zero_bits (sha (b64decode c ++ uint64_be 0)) < t :=
    h3 0 (Nat.le_refl 0) (Nat.pos_of_ne_zero hn)
  omega

/-- A sha-function stub used only to instantiate parametric theorems. -/
def constSha : List Nat → List Nat := fun _ => []

/-- A base64-decode stub used only to instantiate parametric theorems. -/
def constDec : String → List Nat := fun _ => []

theorem pow_solver_correct_witness :
    0 ≤ leading_zero_bits (constSha (constDec "c" ++ uint64_be 0)) ∧
    (∀ m, m < 0 → leading_zero_bits (constSha (constDec "c" ++ uint64_be m)) < 0) ∧
    ((0 : Nat) = 0 → (0 : Nat) = 0) ∧
    (∀ bs : List Nat, (∀ b ∈ bs, b < 256) →
      leading_zero_bits bs = countLeadingZeroBits bs) :=
  pow_solver_correct constSha constDec "c" 0 1 0 (by decide)

/-! ## Content store and upload framing
(`save_content_to_storage` src/index.py:1505-1539, `handle_upload`
src/index.py:1671-1786, `content_response` src/index.py:1198-1265).
The store is modelled as the association of each `cli_content_cache` primary
key with the bytes of its blob file `content/<hash>.dat`; the metadata
columns do not bear on any claim. -/

/-- The store: `content_hash` primary key paired with the blob file bytes. -/
abbrev FileStore : Type := List (String × List Nat)

/-- Model of `save_content_to_storage` (src/index.py:1505-1539): overwrite
`content/<hash>.dat` and `INSERT OR REPLACE` the row keyed by the hash. -/
def save_content_to_storage (h : String) (content : List Nat) (st : FileStore) : FileStore :=
  (h, content) :: st.filter (fun p => p.1 != h)

/-- The C1 store invariant: every row's blob bytes hash back to its key. -/
def storeIntegrity (st : FileStore) : Prop :=
  ∀ p ∈ st, sha256hex p.2 = p.1

instance (st : FileStore) : Decidable (storeIntegrity st) :=
  decidable_of_iff (∀ p ∈ st, sha256hex p.2 = p.1) Iff.rfl

/-- `max_upload_size` (src/index.py:709): 100 MiB. -/
def maxUploadSize : Nat := 100 * 1024 * 1024

/-- The framed-blob header built by `handle_upload` (src/index.py:1732-1736);
the interleaved `b""` segments of the source are empty. `b64encode` stands
for `base64.b64encode`. -/
def frameHeader (b64encode : List Nat → List Nat) (user : String) (pem : List Nat) : List Nat :=
  asciiBytes "# HSYST P2P SERVICE" ++ asciiBytes "### START:" ++
  asciiBytes "# USER: " ++ asciiBytes user ++
  asciiBytes "# KEY: " ++ b64encode pem ++
  asciiBytes "### :END START"

/-- The result a successful `handle_upload` computes before phase 3. -/
structure UploadResult where
  content_hash : String
  signature : List Nat
  pending_upload : String × List Nat
deriving Repr, DecidableEq

/-- Model of `handle_upload` (src/index.py:1671-1767) up to the store write:
reject when not logged in or the raw content exceeds `max_upload_size`;
otherwise hash the framed form `header ++ content`, sign the raw `content`
(the source calls `private_key.sign(content, PSS(MGF1-SHA256, MAX))`,
embedded as the black box `sign`), store the framed blob under the hash and
stash the pending-upload context. -/
def handle_upload (b64encode sign : List Nat → List Nat) (currentUser : Option String)
    (pem content : List Nat) (st : FileStore) : Option UploadResult × FileStore :=
  match currentUser with
  | none => (none, st)
  | some user =>
      if maxUploadSize < content.length then (none, st)
      else
        let framed := frameHeader b64encode user pem ++ content
        let h := sha256hex framed
        (some { content_hash := h, signature := sign content, pending_upload := (h, framed) },
         save_content_to_storage h framed st)

/-- The fields of a `content_response` event the claims depend on: the
base64-decoded payload bytes and the announced `content_hash`. -/
structure ContentRespData where
  content : List Nat
  content_hash : String
  title : String
  username : String
deriving Repr, DecidableEq

/-- The result dictionary `content_response` hands to the waiting caller. -/
structure ContentResult where
  content : List Nat
  content_hash : String
  integrity_ok : Bool
  title : String
  username : String
deriving Repr, DecidableEq

/-- Model of the `content_response` handler (src/index.py:1198-1265): decode
the payload, set `integrity_ok` by comparing `sha256(content).hexdigest()`
with `content_hash`, persist through `save_content_to_storage`
unconditionally, and hand the full result to the caller. -/
def content_response (d : ContentRespData) (st : FileStore) : ContentResult × FileStore :=
  ({ content := d.content, content_hash := d.content_hash,
     integrity_ok := decide (sha256hex d.content = d.content_hash),
     title := d.title, username := d.username },
   save_content_to_storage d.content_hash d.content st)

lemma storeIntegrity_put {st : FileStore} {h : String} {bytes : List Nat}
    (hst : storeIntegrity st) (hh : sha256hex bytes = h) :
    storeIntegrity (save_content_to_storage h bytes st) := by
  intro p hp
  rcases List.mem_cons.mp hp with hp1 | hp2
  · subst hp1; exact hh
  · exact hst p (List.mem_of_mem_filter hp2)

/-- C4: on a `content_response` whose decoded bytes do not hash to the
announced `content_hash`, the result handed to the caller has
`integrity_ok = false` yet still carries the full bytes; on a match,
`integrity_ok = true`. -/
theorem content_response_integrity (d : ContentRespData) (st : FileStore) :
    (sha256hex d.content ≠ d.content_hash →
      (content_response d st).1.integrity_ok = false ∧
      (content_response d st).1.content = d.content) ∧
    (sha256hex d.content = d.content_hash →
      (content_response d st).1.integrity_ok = true) := by
  constructor
  · intro hne; exact ⟨by simp [content_response, hne], rfl⟩
  · intro heq; simp [content_response, heq]

/-- A concrete mismatched `content_response`: empty payload announced under
the key "deadbeef", which is not the SHA-256 of the empty string. -/
def respBad : ContentRespData :=
  { content := [], content_hash := "deadbeef", title := "t", username := "bob" }

/-- A concrete matching `content_response`: empty payload announced under the
SHA-256 hex digest of the empty byte string. -/
def respGood : ContentRespData :=
  { content := [], content_hash := sha256hex [], title := "t", username := "bob" }

theorem content_response_integrity_witness :
    (content_response respBad []).1.integrity_ok = false ∧
    (content_response respBad []).1.content = [] :=
  (content_response_integrity respBad []).1 (by decide)

/-- C1 counterexample: after the `content_response` handler processes a reply
whose bytes do not hash to the announced key, the store holds a row violating
the integrity invariant - the handler persists the blob even when its own
integrity check failed (src/index.py:1224-1239). -/
theorem store_integrity_cex :
    ¬ storeIntegrity (content_response respBad ([] : FileStore)).2 := by
  intro hsi
  have := hsi ("deadbeef", []) (by simp [content_response, respBad, save_content_to_storage])
  revert this; decide

/-- C1 amended: writes from `handle_upload` always preserve the store
integrity invariant; a `content_response` write preserves it exactly when
the handler's own `integrity_ok` flag is true, and breaks it when the flag
is false. -/
theorem store_integrity_per_writer (b64encode sign : List Nat → List Nat)
    (cu : Option String) (pem P : List Nat) (d : ContentRespData) (st : FileStore)
    (hst : storeIntegrity st) :
    storeIntegrity (handle_upload b64encode sign cu pem P st).2 ∧
    ((content_response d st).1.integrity_ok = true →
      storeIntegrity (content_response d st).2) ∧
    ((content_response d st).1.integrity_ok = false →
      ¬ storeIntegrity (content_response d st).2) := by
  refine ⟨?_, ?_, ?_⟩
  · match cu with
    | none => exact hst
    | some user =>
        by_cases hlen : maxUploadSize < P.length
        · simpa [handle_upload, hlen] using hst
        · simp only [handle_upload, if_neg hlen]
          exact storeIntegrity_put hst rfl
  · intro hok
    have heq : sha256hex d.content = d.content_hash := by
      simpa [content_response] using hok
    exact storeIntegrity_put hst heq
  · intro hok hsi
    have hne : sha256hex d.content ≠ d.content_hash := by
      simpa [content_response] using hok
    exact hne (hsi (d.content_hash, d.content)
      (List.mem_cons_self _ _))

/-- An identity stand-in for `base64.b64encode` / `private_key.sign`, used
only to instantiate parametric theorems on concrete inputs. -/
def idBytes : List Nat → List Nat := fun x => x

theorem store_integrity_per_writer_witness :
    storeIntegrity (handle_upload idBytes idBytes (some "a") [] [] ([] : FileStore)).2 ∧
    storeIntegrity (content_response respGood ([] : FileStore)).2 :=
  ⟨(store_integrity_per_writer idBytes idBytes (some "a") [] [] respGood [] (by decide)).1,
   (store_integrity_per_writer idBytes idBytes (some "a") [] [] respGood [] (by decide)).2.1
     (by decide)⟩

/-- C2: for a logged-in upload of payload `P` (within the size bound),
`handle_upload` produces `content_hash = SHA-256-hex(header ++ P)` - the hash
covers the framed form - while the author signature is `sign` applied to `P`
alone; the framed form is never equal to the bare payload, so the signed
message differs from the hashed message. -/
theorem upload_framing_and_signature (b64encode sign : List Nat → List Nat)
    (u : String) (pem P : List Nat) (st : FileStore)
    (hsize : P.length ≤ maxUploadSize) :
    (handle_upload b64encode sign (some u) pem P st).1 =
      some { content_hash := sha256hex (frameHeader b64encode u pem ++ P),
             signature := sign P,
             pending_upload :=
               (sha256hex (frameHeader b64encode u pem ++ P),
                frameHeader b64encode u pem ++ P) } ∧
    frameHeader b64encode u pem ++ P ≠ P := by
  constructor
  · simp [handle_upload, Nat.not_lt.mpr hsize]
  · intro heq
    have hlen := congrArg List.length heq
    rw [List.length_append] at hlen
    have h19 : (asciiBytes "# HSYST P2P SERVICE").length = 19 := by decide
    have hpos : 0 < (frameHeader b64encode u pem).length := by
      unfold frameHeader
      simp only [List.length_append]
      omega
    omega

theorem upload_framing_and_signature_witness :
    (handle_upload idBytes idBytes (some "alice") [] [104] ([] : FileStore)).1 =
      some { content_hash := sha256hex (frameHeader idBytes "alice" [] ++ [104]),
             signature := idBytes [104],
             pending_upload :=
               (sha256hex (frameHeader idBytes "alice" [] ++ [104]),
                frameHeader idBytes "alice" [] ++ [104]) } ∧
    frameHeader idBytes "alice" [] ++ [104] ≠ [104] :=
  upload_framing_and_signature idBytes idBytes "alice" [] [104] [] (by decide)

/-! ## In-memory session state
(`HPSClientCore.__init__` src/index.py:679-721, `handle_logout`
src/index.py:1655-1669, transport `disconnect` handler src/index.py:1051-1056,
`handle_ban` src/index.py:1499-1503, `pow_challenge` error path
src/index.py:1114-1123). Times follow `time.time()` and are modelled as
integers. A `pending_*` attribute being present is modelled as the field
being set. -/

structure ClientState where
  current_user : Option String := none
  username : Option String := none
  connected : Bool := false
  current_server : Option String := none
  reputation : Int := 100
  banned_until : Option Int := none
  ban_duration : Int := 0
  ban_reason : String := ""
  pending_login : Bool := false
  pending_upload : Option (String × List Nat) := none
  pending_dns : Option (String × List Nat) := none
  pending_report : Option (String × String) := none
deriving Repr, DecidableEq

/-- Model of `handle_logout` (src/index.py:1655-1669): when not logged in it
only warns; otherwise it sets `current_user = None`, `username = None` and
`connected = False` (and disconnects the socket). No other field changes. -/
def handle_logout (s : ClientState) : ClientState :=
  if s.current_user = none then s
  else { s with current_user := none, username := none, connected := false }

/-- Model of the transport `disconnect` event handler (src/index.py:1051-1056):
it sets `connected = False` and possibly spawns the reconnect worker, which
touches no session field. -/
def on_disconnect (s : ClientState) : ClientState :=
  { s with connected := false }

/-- A concrete logged-in state used by the closed theorems. -/
def sampleState : ClientState :=
  { current_user := some "alice", username := some "alice", connected := true,
    current_server := some "http://srv", reputation := 100, pending_login := true,
    pending_upload := none, pending_dns := none, pending_report := none }

/-- C9 counterexample: after `handle_logout` on a logged-in state the
in-memory `current_server` is NOT cleared, and the transport `disconnect`
handler clears neither `current_user` nor `current_server`; the claim that
both fields are cleared by both paths is false. -/
theorem logout_disconnect_cex :
    ¬ (((handle_logout sampleState).current_user = none ∧
        (handle_logout sampleState).current_server = none) ∧
       ((on_disconnect sampleState).current_user = none ∧
        (on_disconnect sampleState).current_server = none)) := by decide

/-- C9 amended: `handle_logout` on a logged-in state clears `current_user`,
`username` and the `connected` flag but leaves `current_server` unchanged;
the transport `disconnect` handler clears only the `connected` flag, leaving
both `current_user` and `current_server` unchanged. -/
theorem logout_disconnect_state (s : ClientState) (h : s.current_user ≠ none) :
    (handle_logout s).current_user = none ∧
    (handle_logout s).username = none ∧
    (handle_logout s).connected = false ∧
    (handle_logout s).current_server = s.current_server ∧
    (on_disconnect s).connected = false ∧
    (on_disconnect s).current_user = s.current_user ∧
    (on_disconnect s).current_server = s.current_server := by
  simp [handle_logout, on_disconnect, h]

theorem logout_disconnect_state_witness :
    (handle_logout sampleState).current_user = none ∧
    (handle_logout sampleState).username = none ∧
    (handle_logout sampleState).connected = false ∧
    (handle_logout sampleState).current_server = sampleState.current_server ∧
    (on_disconnect sampleState).connected = false ∧
    (on_disconnect sampleState).current_user = sampleState.current_user ∧
    (on_disconnect sampleState).current_server = sampleState.current_server :=
  logout_disconnect_state sampleState (by decide)

/-- Model of `handle_ban` (src/index.py:1499-1503), with `now` the value of
its `time.time()` call. -/
def handle_ban (now dur : Int) (reason : String) (s : ClientState) : ClientState :=
  { s with banned_until := some (now + dur), ban_duration := dur, ban_reason := reason }

/-- Model of the `pow_challenge` handler error path (src/index.py:1114-1123):
on `error` with a `blocked_until` value it calls
`handle_ban(blocked_until - time.time(), "Rate limit exceeded")` and returns;
`t1` is the `time.time()` read inside `pow_challenge` and `t2` the one inside
`handle_ban`. Nothing else in the state is touched. -/
def pow_challenge_error (t1 t2 : Int) (blocked_until : Option Int) (s : ClientState) :
    ClientState :=
  match blocked_until with
  | some bu => handle_ban t2 (bu - t1) "Rate limit exceeded" s
  | none => s

/-- C8 counterexample: the `pow_challenge` error path with `blocked_until`
sets the banned state but does NOT discard the pending context of the
in-flight action: here `pending_login` survives, refuting the claim that the
pending context is discarded. -/
theorem pow_ban_cex :
    ¬ ((pow_challenge_error 10 10 (some 50) sampleState).banned_until = some 50 ∧
       (pow_challenge_error 10 10 (some 50) sampleState).pending_login = false) := by decide

/-- C8 amended: a `pow_challenge` error with `blocked_until` puts the client
in the banned state with `banned_until = blocked_until` (when the two
`time.time()` reads coincide), surfaces duration `blocked_until - now` and
reason "Rate limit exceeded", but leaves every pending context untouched. -/
theorem pow_ban_amended (t bu : Int) (s : ClientState) :
    (pow_challenge_error t t (some bu) s).banned_until = some bu ∧
    (pow_challenge_error t t (some bu) s).ban_duration = bu - t ∧
    (pow_challenge_error t t (some bu) s).ban_reason = "Rate limit exceeded" ∧
    (pow_challenge_error t t (some bu) s).pending_login = s.pending_login ∧
    (pow_challenge_error t t (some bu) s).pending_upload = s.pending_upload ∧
    (pow_challenge_error t t (some bu) s).pending_dns = s.pending_dns ∧
    (pow_challenge_error t t (some bu) s).pending_report = s.pending_report := by
  refine ⟨?_, ?_, rfl, rfl, rfl, rfl, rfl⟩
  · show some (t + (bu - t)) = some bu
    congr 1
    omega
  · rfl

/-! ## Reporting
(`handle_report` src/index.py:2267-2325, `_report_content`
src/index.py:2327-2352, `report_result` handler src/index.py:1380-1401,
`cli_reports` schema src/index.py:851-860). -/

/-- A `cli_reports` row. -/
structure ReportRow where
  report_id : String
  content_hash : String
  reported_user : String
  reporter_user : String
  timestamp : Int
  status : String
  reason : String
deriving Repr, DecidableEq

/-- Model of the duplicate check of `handle_report` (src/index.py:2293-2299):
`SELECT COUNT(*) FROM cli_reports WHERE reporter_user = ? AND content_hash = ?`. -/
def reports_count (tbl : List ReportRow) (reporter hash : String) : Nat :=
  (tbl.filter (fun r => r.reporter_user == reporter && r.content_hash == hash)).length

/-- The local outcome of `handle_report` before any network activity. -/
inductive ReportOutcome where
  | notLoggedIn
  | usage
  | selfReport
  | lowReputation
  | alreadyReported
  | proceed (content_hash reported_user : String)
deriving Repr, DecidableEq

/-- Model of the precondition ladder of `handle_report`
(src/index.py:2267-2308), in source order: logged in; two arguments;
not self; reputation at least 20; no existing `cli_reports` row for
`(current_user, content_hash)`. Only the `proceed` outcome stashes
`pending_report` and requests the PoW that later emits `report_content`;
every other outcome returns an error locally. -/
def handle_report (currentUser : Option String) (reputation : Int)
    (args : List String) (tbl : List ReportRow) : ReportOutcome :=
  match currentUser with
  | none => .notLoggedIn
  | some user =>
      match args with
      | content_hash :: reported_user :: _ =>
          if reported_user = user then .selfReport
          else if reputation < 20 then .lowReputation
          else if 0 < reports_count tbl user content_hash then .alreadyReported
          else .proceed content_hash reported_user
      | _ => .usage

/-- C7: `handle_report` reaches the emitting `proceed` outcome exactly when
the reporter is logged in, the reported user differs from `current_user`,
reputation is at least 20 and no `cli_reports` row exists for
`(current_user, content_hash)`; with no logged-in user every invocation
fails locally. -/
theorem report_preconditions (u ch ru : String) (rep : Int) (rest : List String)
    (tbl : List ReportRow) :
    (handle_report (some u) rep (ch :: ru :: rest) tbl = .proceed ch ru ↔
      (ru ≠ u ∧ 20 ≤ rep ∧ reports_count tbl u ch = 0)) ∧
    handle_report none rep (ch :: ru :: rest) tbl = .notLoggedIn := by
  refine ⟨⟨fun h => ?_, fun h => ?_⟩, rfl⟩
  · by_cases h1 : ru = u
    · simp [handle_report, h1] at h
    · by_cases h2 : rep < 20
      · simp [handle_report, h1, h2] at h
      · by_cases h3 : 0 < reports_count tbl u ch
        · simp [handle_report, h1, h2, h3] at h
        · exact ⟨h1, by omega, by omega⟩
  · obtain ⟨h1, h2, h3⟩ := h
    simp [handle_report, h1, h3]
    omega

theorem report_preconditions_witness :
    (handle_report (some "alice") 20 ["h1", "bob"] [] = .proceed "h1" "bob") ∧
    (handle_report (some "alice") 19 ["h1", "bob"] [] ≠ .proceed "h1" "bob") :=
  ⟨(report_preconditions "alice" "h1" "bob" 20 [] []).1.mpr (by decide),
   fun hc =>
     absurd ((report_preconditions "alice" "h1" "bob" 19 [] []).1.mp hc).2.1 (by decide)⟩

/-- Model of `_report_content` (src/index.py:2327-2352): when connected it
first INSERTs the `cli_reports` row with status "pending" and then emits
`report_content`; the returned flag records whether the emit happened. When
not connected nothing happens. -/
def _report_content (connected : Bool) (reporter content_hash reported_user report_id : String)
    (now : Int) (tbl : List ReportRow) : List ReportRow × Bool :=
  if connected then
    (⟨report_id, content_hash, reported_user, reporter, now, "pending", ""⟩ :: tbl, true)
  else (tbl, false)

/-- Effect of the `report_result` handler (src/index.py:1380-1401) on the
`cli_reports` table: it updates stats, prints, sets the reply event and
deletes `pending_report`, but runs no SQL against `cli_reports` - for
success and failure alike the table is unchanged. -/
def report_result_on_reports (_success : Bool) (tbl : List ReportRow) : List ReportRow :=
  tbl

/-- C10: `_report_content` emits only after inserting the "pending" guard
row; `report_result` leaves the table unchanged even on failure; hence any
later `handle_report` by the same reporter for the same hash (meeting the
other preconditions) is rejected locally as a duplicate. -/
theorem report_guard_permanent (u ch ru ru2 rid : String) (now : Int) (rep : Int)
    (rest : List String) (tbl : List ReportRow) (succ : Bool)
    (hne : ru2 ≠ u) (hrep : 20 ≤ rep) :
    (_report_content true u ch ru rid now tbl).2 = true ∧
    (⟨rid, ch, ru, u, now, "pending", ""⟩ : ReportRow) ∈ (_report_content true u ch ru rid now tbl).1 ∧
    report_result_on_reports succ (_report_content true u ch ru rid now tbl).1 =
      (_report_content true u ch ru rid now tbl).1 ∧
    handle_report (some u) rep (ch :: ru2 :: rest) (_report_content true u ch ru rid now tbl).1 =
      .alreadyReported := by
  refine ⟨rfl, List.mem_cons_self _ _, rfl, ?_⟩
  have hcount : 0 < reports_count (_report_content true u ch ru rid now tbl).1 u ch := by
    show 0 < (List.filter _ (_ :: tbl)).length
    rw [List.filter_cons]
    simp
  simp [handle_report, hne, hcount]
  omega

theorem report_guard_permanent_witness :
    (_report_content true "alice" "h1" "bob" "r1" 0 []).2 = true ∧
    (⟨"r1", "h1", "bob", "alice", 0, "pending", ""⟩ : ReportRow) ∈
      (_report_content true "alice" "h1" "bob" "r1" 0 []).1 ∧
    report_result_on_reports false (_report_content true "alice" "h1" "bob" "r1" 0 []).1 =
      (_report_content true "alice" "h1" "bob" "r1" 0 []).1 ∧
    handle_report (some "alice") 20 ["h1", "bob"] (_report_content true "alice" "h1" "bob" "r1" 0 []).1 =
      .alreadyReported :=
  report_guard_permanent "alice" "h1" "bob" "bob" "r1" 0 20 [] [] false (by decide) (by decide)

/-! ## Controller-file IPC log protocol
(`_write_log_status` src/index.py:177-184, `_append_log_result`
src/index.py:186-191, `_read_log_file` src/index.py:193-211,
`_execute_command_with_log` src/index.py:213-232, `send_command`
src/index.py:303-355). A log file is modelled as its list of lines; every
`f.write(x + "\n")` appends `x.splitOn "\n"` as lines, and the `.strip()`
applied by `_read_log_file` removes the line terminator, which the line
model already omits. -/

/-- Split a character list at newline characters. -/
def splitCharLines : List Char → List (List Char)
  | [] => [[]]
  | c :: rest =>
      match splitCharLines rest, decide (c = Char.ofNat 10) with
      | r, true => [] :: r
      | [], false => [[c]]
      | l :: ls, false => (c :: l) :: ls

/-- The lines a string contributes to a file when written with a trailing
newline: the model of `s.splitOn "\n"` as used by the log layout. -/
def splitLines (s : String) : List String :=
  (splitCharLines s.data).map (fun l => String.mk l)

/-- Model of `_write_log_status` (src/index.py:177-184): write the status
line, then the message line ONLY when the message is non-empty (Python
`if message:`). -/
def writeLogLines (status msg : String) : List String :=
  [status] ++ (if msg = "" then [] else splitLines msg)

/-- Model of `_append_log_result` (src/index.py:186-191). -/
def appendLogLine (log : List String) (result : String) : List String :=
  log ++ [result]

/-- The finished log `_execute_command_with_log` (src/index.py:213-232)
leaves behind for a handler outcome `(success, msg)`: status write followed
by the appended terminal indicator, both "1" on success and "0" on
failure. -/
def finishedLog (success : Bool) (msg : String) : List String :=
  appendLogLine (writeLogLines (if success then "1" else "0") msg)
    (if success then "1" else "0")

/-- Model of `_read_log_file` (src/index.py:193-211): `status` is line 1,
`message` line 2 or "", `result` line 3 or ""; `none` on an empty file. -/
def readLogData (lines : List String) : Option (String × String × String) :=
  match lines with
  | [] => none
  | s :: rest => some (s, rest.getD 0 "", rest.getD 1 "")

/-- One polling step of `send_command` (src/index.py:333-350) on the current
log content: `some (success, message)` when it returns to the caller, `none`
when it keeps polling (a 300-second budget of such steps ends in a timeout
failure). -/
def sendPollDecision (lines : List String) : Option (Bool × String) :=
  match readLogData lines with
  | none => none
  | some (status, message, result) =>
      if status = "1" ∧ result ≠ "" then
        some (result == "1",
          if message ≠ "" then message
          else if result = "1" then "Command executed successfully" else "Command failed")
      else if status = "0" then
        some (false, if message ≠ "" then message else "Command failed immediately")
      else none

/-- C5 counterexample: for a successful handler outcome whose captured
message is empty, the finished log does NOT have the message on line 2 and
the terminal indicator on line 3 - the indicator lands on line 2 and there
is no line 3 - so the claimed layout fails for this outcome. -/
theorem controller_log_cex :
    ¬ ((finishedLog true "").getD 1 "" = "" ∧ (finishedLog true "").getD 2 "" = "1") := by
  decide

/-- C5 amended: for an outcome whose message is non-empty (and single-line),
the finished log is exactly status line, message line, terminal-indicator
line, with "1"/"0" by success on lines 1 and 3, and the `send_command`
poll returns `(success, message)` on it; for a successful outcome with an
empty message the indicator is written to line 2, the poll never returns,
and `send_command` ends in a timeout failure. -/
theorem controller_log_amended (success : Bool) (msg : String)
    (h1 : splitLines msg = [msg]) (h2 : msg ≠ "") :
    finishedLog success msg =
      [if success then "1" else "0", msg, if success then "1" else "0"] ∧
    sendPollDecision (finishedLog success msg) = some (success, msg) ∧
    sendPollDecision (finishedLog true "") = none := by
  refine ⟨?_, ?_, by decide⟩
  · cases success <;>
      simp [finishedLog, writeLogLines, appendLogLine, h1, h2]
  · cases success <;>
      simp [finishedLog, writeLogLines, appendLogLine, readLogData, sendPollDecision, h1, h2]

theorem controller_log_amended_witness :
    finishedLog true "ok" = [if true then "1" else "0", "ok", if true then "1" else "0"] ∧
    sendPollDecision (finishedLog true "ok") = some (true, "ok") ∧
    sendPollDecision (finishedLog true "") = none :=
  controller_log_amended true "ok" (by decide) (by decide)

/-! ## Handler wait timeouts
(`handle_upload` wait src/index.py:1763-1767, `handle_download` wait
src/index.py:1856-1858, `handle_dns_register` wait src/index.py:1935-1939,
`handle_dns_resolve` wait src/index.py:2021-2023, `handle_search` wait
src/index.py:2095-2097, `handle_network` wait src/index.py:2162-2164,
`handle_report` wait src/index.py:2310-2314). Each blocking handler calls
`<event>.wait(T)`; the wait is modelled by the arrival time of the awaited
terminal event (`none` when it never fires), and each model returns the
remaining pending flags together with whether the handler took its timeout
branch. -/

/-- Model of `threading.Event.wait(timeoutSecs)`: true exactly when the
event fires within the timeout. -/
def eventWaitHit (timeoutSecs : Nat) (arrival : Option Nat) : Bool :=
  match arrival with
  | some t => decide (t ≤ timeoutSecs)
  | none => false

structure PendingFlags where
  pending_upload : Bool
  pending_dns : Bool
  pending_report : Bool
deriving Repr, DecidableEq

/-- `handle_upload` blocking phase: `upload_event.wait(300)`; on timeout it
deletes `pending_upload` and fails. -/
def upload_wait (s : PendingFlags) (arrival : Option Nat) : PendingFlags × Bool :=
  if eventWaitHit 300 arrival then (s, false)
  else ({ s with pending_upload := false }, true)

/-- `handle_dns_register` blocking phase: `dns_event.wait(300)`; on timeout
it deletes `pending_dns` and fails. -/
def dns_register_wait (s : PendingFlags) (arrival : Option Nat) : PendingFlags × Bool :=
  if eventWaitHit 300 arrival then (s, false)
  else ({ s with pending_dns := false }, true)

/-- `handle_report` blocking phase: `report_event.wait(300)`; on timeout it
deletes `pending_report` and fails. -/
def report_wait (s : PendingFlags) (arrival : Option Nat) : PendingFlags × Bool :=
  if eventWaitHit 300 arrival then (s, false)
  else ({ s with pending_report := false }, true)

/-- `handle_download` blocking phase: `content_event.wait(30)`; there is no
pending context to clear. -/
def download_wait (s : PendingFlags) (arrival : Option Nat) : PendingFlags × Bool :=
  if eventWaitHit 30 arrival then (s, false) else (s, true)

/-- `handle_dns_resolve` blocking phase: `dns_event.wait(30)`. -/
def dns_resolve_wait (s : PendingFlags) (arrival : Option Nat) : PendingFlags × Bool :=
  if eventWaitHit 30 arrival then (s, false) else (s, true)

/-- `handle_search` blocking phase: `search_event.wait(30)`. -/
def search_wait (s : PendingFlags) (arrival : Option Nat) : PendingFlags × Bool :=
  if eventWaitHit 30 arrival then (s, false) else (s, true)

/-- `handle_network` blocking phase: `network_event.wait(30)`. -/
def network_wait (s : PendingFlags) (arrival : Option Nat) : PendingFlags × Bool :=
  if eventWaitHit 30 arrival then (s, false) else (s, true)

/-- A state with every pending context set, for the closed theorems. -/
def allPending : PendingFlags := ⟨true, true, true⟩

/-- C6 counterexample: a terminal event arriving 200 s after the wait begins
is inside the claimed uniform 300-s window, and `handle_upload` indeed does
not time out on it - but `handle_download` does, because its wait is only
30 s: the uniform-300-s claim is false. -/
theorem handler_timeout_cex :
    ¬ ((upload_wait allPending (some 200)).2 = false ∧
       (download_wait allPending (some 200)).2 = false) := by decide

/-- C6 amended: the gated handlers upload, dns-reg and report wait 300 s and
clear their pending context on timeout; download, dns-res, search and
network wait only 30 s (failing even when the reply arrives between 30 s
and 300 s) and have no pending context to clear. -/
theorem handler_timeouts (s : PendingFlags) (t : Nat) :
    (t ≤ 300 → (upload_wait s (some t)).2 = false) ∧
    upload_wait s none = ({ s with pending_upload := false }, true) ∧
    (t ≤ 300 → (dns_register_wait s (some t)).2 = false) ∧
    dns_register_wait s none = ({ s with pending_dns := false }, true) ∧
    (t ≤ 300 → (report_wait s (some t)).2 = false) ∧
    report_wait s none = ({ s with pending_report := false }, true) ∧
    (t ≤ 30 → (download_wait s (some t)).2 = false) ∧
    (30 < t → (download_wait s (some t)).2 = true) ∧
    download_wait s none = (s, true) ∧
    (t ≤ 30 → (dns_resolve_wait s (some t)).2 = false) ∧
    dns_resolve_wait s none = (s, true) ∧
    (t ≤ 30 → (search_wait s (some t)).2 = false) ∧
    search_wait s none = (s, true) ∧
    (t ≤ 30 → (network_wait s (some t)).2 = false) ∧
    network_wait s none = (s, true) := by
  refine ⟨fun h => ?_, rfl, fun h => ?_, rfl, fun h => ?_, rfl, fun h => ?_, fun h => ?_,
    rfl, fun h => ?_, rfl, fun h => ?_, rfl, fun h => ?_, rfl⟩
  · simp [upload_wait, eventWaitHit, h]
  · simp [dns_register_wait, eventWaitHit, h]
  · simp [report_wait, eventWaitHit, h]
  · simp [download_wait, eventWaitHit, h]
  · simp [download_wait, eventWaitHit, Nat.not_le.mpr h]
  · simp [dns_resolve_wait, eventWaitHit, h]
  · simp [search_wait, eventWaitHit, h]
  · simp [network_wait, eventWaitHit, h]

theorem handler_timeouts_witness :
    (upload_wait allPending (some 10)).2 = false ∧
    (download_wait allPending (some 200)).2 = true := by
  have h := handler_timeouts allPending 10
  have h2 := handler_timeouts allPending 200
  exact ⟨h.1 (by decide), h2.2.2.2.2.2.2.2.1 (by decide)⟩

end HPS
